import Mathlib

/-!
# jwt-mock: the JWT request handler (handlers/jwt.go)

A shallow embedding of `JWTHandler` and its `Post` and `RegisterDefaultPaths`
methods.  The handler is an orchestration of calls on collaborators
(`jsonUnmarshal`, `KeyStore.GetSigningKey`, `jwt.CreateToken`, `jsonMarshal`,
the zap logger and the `http.ResponseWriter`).  A run of the handler is
embedded as the receiver after the call together with the sequence of calls it
makes, in program order; the results of the collaborators are supplied by an
environment `Env`.  The key store and the token builder, whose code is in other
packages of the repository, are modelled from the spec in a section of their
own.
-/

namespace JwtMock

/-! ## Data model -/

/-- A Go `error` value, observed through the string its `Error` method returns. -/
structure GoError where
  msg : String
deriving DecidableEq, Repr

/-- The `Error()` method of a Go error. -/
def GoError.Error (e : GoError) : String := e.msg

/-- The result of a Go function returning `(value, error)`. -/
inductive Result (α : Type) where
  | ok (v : α)
  | error (err : GoError)
deriving DecidableEq, Repr

/-- The error of a result, `none` standing for Go's `nil`. -/
def Result.err {α : Type} : Result α → Option GoError
  | .ok _ => none
  | .error e => some e

/-- The part of `*http.Request` the handlers read: the method and the body. -/
structure Request where
  Method : String
  Body : String
deriving DecidableEq, Repr

/-- The constant `http.MethodPost`. -/
def MethodPost : String := "POST"

/-- The constant `http.StatusOK`. -/
def StatusOK : Nat := 200

/-- The constant `http.StatusBadRequest`. -/
def StatusBadRequest : Nat := 400

/-- The constant `JWTDefaultPath` is the default path for JWT handlers. -/
def JWTDefaultPath : String := "/generate-jwt"

/-- The values `Post` hands to `jsonMarshal`: the `jwtResponse` struct of
jwt.go and the `errorResponse` struct of the handlers package. -/
inductive Payload where
  | jwtResponse (Token : String)
  | errorResponse (Message : String) (Error : String)
deriving DecidableEq, Repr

/-- Modelled from the spec: the declaration of `errorResponse` is not in
jwt.go, its JSON field names `message` and `error` are those of the spec's
failure object; the field name `token` of `jwtResponse` is its struct tag in
jwt.go.  The JSON object a payload is marshalled to, as its list of fields. -/
def Payload.fields : Payload → List (String × String)
  | .jwtResponse t => [("token", t)]
  | .errorResponse m e => [("message", m), ("error", e)]

/-- Modelled from the spec: the operations of `service.KeyStore`, whose
declaration is not in jwt.go (spec section 4.1). -/
inductive KeyStoreOp where
  | Initialize
  | GetSigningKey
  | GetPublicKeySet
deriving DecidableEq, Repr

/-- One call made by a handler: on the response writer `w`, on the request
`r`, on the key store and the logger of the receiver, or on the `jwt`
package. -/
inductive Event (Claims Key : Type) where
  /-- The call `w.Header().Set(key, value)`. -/
  | headerSet (key value : String)
  /-- The call `w.WriteHeader(code)`. -/
  | writeHeader (code : Nat)
  /-- The call `jsonUnmarshal(r, &claims)` and what it returned. -/
  | jsonUnmarshal (r : Request) (res : Result Claims)
  /-- A call on `j.keyStore`. -/
  | keyStore (op : KeyStoreOp)
  /-- The call `jwt.CreateToken(claims, key)` and what it returned. -/
  | createToken (claims : Claims) (key : Key) (res : Result String)
  /-- The call `jsonMarshal(w, v)` and the error it returned, `none` for `nil`. -/
  | jsonMarshal (v : Payload) (res : Option GoError)
  /-- The call `j.logger.Error(msg, zap.Error(err))`. -/
  | logError (msg : String) (err : GoError)
  /-- The call `notFoundResponse(w)`. -/
  | notFoundResponse
deriving DecidableEq, Repr

/-- The type `JWTHandler` provides handlers for working with JWTs. -/
structure JWTHandler (KeyStore Logger : Type) where
  keyStore : KeyStore
  logger : Logger
deriving DecidableEq, Repr

/-- What the functions called by `Post` return.  Their code is not part of
jwt.go; `Post` is embedded for every behaviour they may have. -/
structure Env (Claims Key KeyStore : Type) where
  /-- The result of `jsonUnmarshal(r, &claims)`: the decoded claims or the error. -/
  jsonUnmarshal : Request → Result Claims
  /-- The result of `keyStore.GetSigningKey()`. -/
  GetSigningKey : KeyStore → Key
  /-- The result of `jwt.CreateToken(claims, signingKey)`. -/
  CreateToken : Claims → Key → Result String
  /-- The error returned by `jsonMarshal(w, v)`, `none` for `nil`. -/
  jsonMarshal : Payload → Option GoError

/-- A finished call of a handler method: the receiver after the call and the
calls made, in program order. -/
structure Run (Claims Key KeyStore Logger : Type) where
  handler : JWTHandler KeyStore Logger
  trace : List (Event Claims Key)

section Handler

variable {Claims Key KeyStore Logger : Type}

/-- The function `NewJWTHandler` is the preferred way to create a `JWTHandler`
instance. -/
def NewJWTHandler (keyStore : KeyStore) (logger : Logger) : JWTHandler KeyStore Logger :=
  { keyStore := keyStore, logger := logger }

/-- The method `Post` creates a signed JWT with the provided claims. -/
def Post (env : Env Claims Key KeyStore) (j : JWTHandler KeyStore Logger) (r : Request) :
    Run Claims Key KeyStore Logger :=
  let t0 : List (Event Claims Key) := [.headerSet "Content-Type" "application/json"]
  match env.jsonUnmarshal r with
  | .error err =>
    let t1 := t0 ++ [.jsonUnmarshal r (.error err),
                     .logError "failed to read claims" err,
                     .writeHeader StatusBadRequest]
    let v := Payload.errorResponse "Failed to read claims" err.Error
    match env.jsonMarshal v with
    | some err =>
      { handler := j
        trace := t1 ++ [.jsonMarshal v (some err),
                        .logError "Failed write JSON response" err] }
    | none =>
      { handler := j
        trace := t1 ++ [.jsonMarshal v none] }
  | .ok claims =>
    let t1 := t0 ++ [.jsonUnmarshal r (.ok claims)]
    let signingKey := env.GetSigningKey j.keyStore
    let t2 := t1 ++ [.keyStore .GetSigningKey]
    match env.CreateToken claims signingKey with
    | .error err =>
      let t3 := t2 ++ [.createToken claims signingKey (.error err),
                       .logError "failed to generate JWT" err,
                       .writeHeader StatusBadRequest]
      let v := Payload.errorResponse "Failed to generate JWT" err.Error
      match env.jsonMarshal v with
      | some err =>
        { handler := j
          trace := t3 ++ [.jsonMarshal v (some err),
                          .logError "Failed write JSON response" err] }
      | none =>
        { handler := j
          trace := t3 ++ [.jsonMarshal v none] }
    | .ok token =>
      let t3 := t2 ++ [.createToken claims signingKey (.ok token)]
      let v := Payload.jwtResponse token
      match env.jsonMarshal v with
      | some err =>
        { handler := j
          trace := t3 ++ [.jsonMarshal v (some err),
                          .logError "Failed write JSON response" err] }
      | none =>
        { handler := j
          trace := t3 ++ [.jsonMarshal v none,
                          .writeHeader StatusOK] }

/-- A handler function registered on a mux. -/
abbrev HandlerFunc (Claims Key KeyStore Logger : Type) : Type :=
  Request → Run Claims Key KeyStore Logger

/-- The `http.ServeMux`: the registered patterns with their handlers, in
registration order. -/
abbrev ServeMux (Claims Key KeyStore Logger : Type) : Type :=
  List (String × HandlerFunc Claims Key KeyStore Logger)

/-- The method `ServeMux.HandleFunc` of net/http registers the handler function
for the given pattern.  It panics, and registers nothing, when the pattern is
empty or a handler is already registered for it; `none` stands for the
panic. -/
def HandleFunc (api : ServeMux Claims Key KeyStore Logger) (pattern : String)
    (handler : HandlerFunc Claims Key KeyStore Logger) :
    Option (ServeMux Claims Key KeyStore Logger) :=
  if pattern = "" ∨ api.any (fun p => p.1 == pattern) = true then none
  else some (api ++ [(pattern, handler)])

/-- The method `RegisterDefaultPaths` registers the handler of `JWTDefaultPath`
on the mux.  Its comment in jwt.go speaks of the default paths for JWKS
operations; the one path the code registers is the JWT one. -/
def RegisterDefaultPaths (env : Env Claims Key KeyStore) (j : JWTHandler KeyStore Logger)
    (api : ServeMux Claims Key KeyStore Logger) :
    Option (ServeMux Claims Key KeyStore Logger) :=
  HandleFunc api JWTDefaultPath (fun r =>
    if r.Method = MethodPost then
      Post env j r
    else
      { handler := j, trace := [.notFoundResponse] })

/-! ## Observing a trace -/

/-- The state of an `http.ResponseWriter`, as `httptest.ResponseRecorder`
keeps it: the header map, the status code once the header is written, the
header map as it was then, and the `jsonMarshal` calls made on the writer,
each with the error it returned. -/
structure ResponseWriter where
  header : List (String × String)
  code : Option Nat
  sentHeader : List (String × String)
  marshalled : List (Payload × Option GoError)
deriving DecidableEq, Repr

/-- A fresh response writer: no header, nothing written. -/
def NewRecorder : ResponseWriter :=
  { header := [], code := none, sentHeader := [], marshalled := [] }

/-- The effect of `w.Header().Set(key, value)`: the entry replaces any other
for the key. -/
def ResponseWriter.Set (w : ResponseWriter) (key value : String) : ResponseWriter :=
  { w with header := (key, value) :: w.header.filter (fun p => p.1 != key) }

/-- The effect of `w.WriteHeader(code)`: the first call sends the status
code with the header map as it is then, a later call changes nothing. -/
def ResponseWriter.WriteHeader (w : ResponseWriter) (code : Nat) : ResponseWriter :=
  match w.code with
  | some _ => w
  | none => { w with code := some code, sentHeader := w.header }

/-- The effect of `jsonMarshal(w, v)` returning `res`: the call is recorded;
a call that returns `nil` has written the body, which sends status 200 first
when no header was written before. -/
def ResponseWriter.Marshal (w : ResponseWriter) (v : Payload) (res : Option GoError) :
    ResponseWriter :=
  let w1 := match res with
    | none => w.WriteHeader StatusOK
    | some _ => w
  { w1 with marshalled := w1.marshalled ++ [(v, res)] }

/-- The effect of one call on the response writer; calls on other objects
leave it as it is. -/
def ResponseWriter.step (w : ResponseWriter) : Event Claims Key → ResponseWriter
  | .headerSet k v => w.Set k v
  | .writeHeader c => w.WriteHeader c
  | .jsonMarshal v res => w.Marshal v res
  | _ => w

/-- The response writer after the calls of a trace, starting from a fresh one. -/
def response (tr : List (Event Claims Key)) : ResponseWriter :=
  tr.foldl ResponseWriter.step NewRecorder

/-- The status code of the response: the one written, or 200 when the
handler returned without writing one. -/
def ResponseWriter.Status (w : ResponseWriter) : Nat :=
  w.code.getD StatusOK

/-- The header of the response: the header map as it was when the status
was written, or as it is at the end when none was. -/
def ResponseWriter.Header (w : ResponseWriter) : List (String × String) :=
  match w.code with
  | some _ => w.sentHeader
  | none => w.header

/-- The body of the response: the values of the `jsonMarshal` calls on the
writer that returned `nil`, in order.  A call that returned an error has
written no body. -/
def ResponseWriter.Body (w : ResponseWriter) : List Payload :=
  w.marshalled.filterMap (fun p =>
    match p.2 with
    | none => some p.1
    | some _ => none)

/-- Whether the event is a `jwt.CreateToken` call. -/
def Event.isCreateToken : Event Claims Key → Bool
  | .createToken _ _ _ => true
  | _ => false

/-- Whether the event is a call on the key store. -/
def Event.isKeyStore : Event Claims Key → Bool
  | .keyStore _ => true
  | _ => false

/-- Whether the event is a `jsonMarshal` call. -/
def Event.isJsonMarshal : Event Claims Key → Bool
  | .jsonMarshal _ _ => true
  | _ => false

/-- Whether the event is a `jsonUnmarshal` call. -/
def Event.isJsonUnmarshal : Event Claims Key → Bool
  | .jsonUnmarshal _ _ => true
  | _ => false

/-- Whether the event is a `WriteHeader` call. -/
def Event.isWriteHeader : Event Claims Key → Bool
  | .writeHeader _ => true
  | _ => false

/-- Whether the event is a `Header().Set` call. -/
def Event.isHeaderSet : Event Claims Key → Bool
  | .headerSet _ _ => true
  | _ => false

/-- The error a step returned: `jsonUnmarshal`, `jwt.CreateToken` and
`jsonMarshal` are the steps that return one. -/
def Event.stepError : Event Claims Key → Option GoError
  | .jsonUnmarshal _ res => res.err
  | .createToken _ _ res => res.err
  | .jsonMarshal _ res => res
  | _ => none

/-- The error attached to an error-level log entry. -/
def Event.loggedError : Event Claims Key → Option GoError
  | .logError _ err => some err
  | _ => none

/-- The errors the steps of a trace returned, in order. -/
def stepErrors (tr : List (Event Claims Key)) : List GoError :=
  tr.filterMap Event.stepError

/-- The errors attached to the error-level log entries of a trace, in order. -/
def loggedErrors (tr : List (Event Claims Key)) : List GoError :=
  tr.filterMap Event.loggedError

/-- The status writes and body writes of a trace, in order. -/
def writerCalls (tr : List (Event Claims Key)) : List (Event Claims Key) :=
  tr.filter (fun e => e.isWriteHeader || e.isJsonMarshal)

/-- The status codes written after the first body write of a trace. -/
def statusWritesAfterBody : List (Event Claims Key) → List Nat
  | [] => []
  | .jsonMarshal _ _ :: rest =>
    rest.filterMap (fun e => match e with
      | .writeHeader c => some c
      | _ => none)
  | _ :: rest => statusWritesAfterBody rest

/-- Whether what an event records is what the environment returns for the
call. -/
def Event.agrees (env : Env Claims Key KeyStore) (ks : KeyStore) :
    Event Claims Key → Prop
  | .jsonUnmarshal r res => res = env.jsonUnmarshal r
  | .createToken c k res => k = env.GetSigningKey ks ∧ res = env.CreateToken c k
  | .jsonMarshal v res => res = env.jsonMarshal v
  | _ => True

/-- The events of a trace after its first `jwt.CreateToken` call. -/
def afterCreateToken : List (Event Claims Key) → List (Event Claims Key)
  | [] => []
  | .createToken _ _ _ :: rest => rest
  | _ :: rest => afterCreateToken rest

/-- The log entry `Post` makes for the error a `jsonMarshal` call returned:
none when the call returned `nil`. -/
def writeFailureLog (res : Option GoError) : List (Event Claims Key) :=
  match res with
  | some err => [.logError "Failed write JSON response" err]
  | none => []

end Handler

/-! ## A concrete environment -/

/-- The claims of the examples: a flat JSON object of string members. -/
abbrev DemoClaims : Type := List (String × String)

/-- A request carrying the claims object with the one member sub = user-1. -/
def demoRequest : Request :=
  { Method := "POST", Body := "\x7b\"sub\":\"user-1\"\x7d" }

/-- A request with a truncated body. -/
def truncatedRequest : Request :=
  { Method := "POST", Body := "\x7b\"sub\":" }

/-- A request whose claims the token builder of `demoEnv` rejects. -/
def rejectedRequest : Request :=
  { Method := "POST", Body := "\x7b\"alg\":\"none\"\x7d" }

/-- An environment for the examples: two bodies decode, the key store maps
to its current key, signing fails for the claim `alg`, and writing a response
succeeds. -/
def demoEnv : Env DemoClaims String String where
  jsonUnmarshal := fun r =>
    if r.Body = "\x7b\"sub\":\"user-1\"\x7d" then .ok [("sub", "user-1")]
    else if r.Body = "\x7b\"alg\":\"none\"\x7d" then .ok [("alg", "none")]
    else .error { msg := "unexpected end of JSON input" }
  GetSigningKey := fun ks => ks ++ "/current"
  CreateToken := fun c k =>
    if c.lookup "alg" = some "none" then .error { msg := "unsupported algorithm" }
    else .ok ("header." ++ String.intercalate "," (c.map Prod.snd) ++ "." ++ k)
  jsonMarshal := fun _ => none

/-- The environment `demoEnv` with a response writer whose writes fail. -/
def brokenPipeEnv : Env DemoClaims String String :=
  { demoEnv with jsonMarshal := fun _ => some { msg := "write: broken pipe" } }

/-- The handler of the examples. -/
def demoHandler : JWTHandler String Unit :=
  NewJWTHandler "store" ()

/-- A mux on which a handler is already registered for `JWTDefaultPath`. -/
def occupiedMux : ServeMux DemoClaims String String Unit :=
  [(JWTDefaultPath, fun _ => { handler := demoHandler, trace := [] })]

/-! ## The key store and the token builder, from the spec

`service.KeyStore`, `jwt.CreateToken` and the JSON, base64 and signature
libraries they build on are not part of jwt.go.  This section models them from
the spec's sections 3, 4 and 6, with the libraries as parameters that carry
their contract. -/

/-- One octet. -/
abbrev Byte : Type := Fin 256

/-- Modelled from the spec: the `Claims` data model of section 3, whose
declaration `jwt.Claims` is not in jwt.go: a mapping from claim name to JSON
value, as an association list over the JSON values `Value`. -/
abbrev ClaimSet (Value : Type) : Type := List (String × Value)

/-- Modelled from the spec: the alphabet of the standard base64url encoding
of the token segments (section 6); the encoder is library code not in jwt.go. -/
def base64urlAlphabet : List Char :=
  "ABCDEFGHIJKLMNOPQRSTUVWXYZabcdefghijklmnopqrstuvwxyz0123456789-_".toList

/-- Modelled from the spec: the base64url character of a six-bit value, for
the encoder missing from jwt.go. -/
def encodeSextet (n : Nat) : Char :=
  base64urlAlphabet.getD n 'A'

/-- Modelled from the spec: the six-bit value of a base64url character, for
the decoder missing from jwt.go; `none` for a character outside the alphabet. -/
def decodeSextet (c : Char) : Option Nat :=
  let i := base64urlAlphabet.indexOf c
  if i < 64 then some i else none

/-- Modelled from the spec: the base64url encoding without padding of
sections 4.2 and 6, missing from jwt.go: three octets give four characters, a
rest of two octets three characters and a rest of one octet two. -/
def base64urlEncode : List Byte → List Char
  | a :: b :: c :: rest =>
    encodeSextet (a.val / 4)
      :: encodeSextet (a.val % 4 * 16 + b.val / 16)
      :: encodeSextet (b.val % 16 * 4 + c.val / 64)
      :: encodeSextet (c.val % 64)
      :: base64urlEncode rest
  | [a, b] =>
    [encodeSextet (a.val / 4),
     encodeSextet (a.val % 4 * 16 + b.val / 16),
     encodeSextet (b.val % 16 * 4)]
  | [a] =>
    [encodeSextet (a.val / 4),
     encodeSextet (a.val % 4 * 16)]
  | [] => []

/-- Modelled from the spec: the decoding of base64url without padding that a
verifier applies to a token segment, missing from jwt.go; `none` for a
character outside the alphabet or a length no encoding has. -/
def base64urlDecode : List Char → Option (List Byte)
  | w :: x :: y :: z :: rest =>
    match decodeSextet w, decodeSextet x, decodeSextet y, decodeSextet z,
        base64urlDecode rest with
    | some s1, some s2, some s3, some s4, some bs =>
      some (Fin.ofNat (s1 * 4 + s2 / 16)
        :: Fin.ofNat (s2 % 16 * 16 + s3 / 4)
        :: Fin.ofNat (s3 % 4 * 64 + s4)
        :: bs)
    | _, _, _, _, _ => none
  | [w, x, y] =>
    match decodeSextet w, decodeSextet x, decodeSextet y with
    | some s1, some s2, some s3 =>
      some [Fin.ofNat (s1 * 4 + s2 / 16), Fin.ofNat (s2 % 16 * 16 + s3 / 4)]
    | _, _, _ => none
  | [w, x] =>
    match decodeSextet w, decodeSextet x with
    | some s1, some s2 => some [Fin.ofNat (s1 * 4 + s2 / 16)]
    | _, _ => none
  | [_] => none
  | [] => some []

/-- Modelled from the spec: the segments of a compact token, the parts
between its dots (section 6), for the verifier missing from jwt.go. -/
def splitDots : List Char → List (List Char)
  | [] => [[]]
  | c :: cs =>
    if c = '.' then [] :: splitDots cs
    else
      match splitDots cs with
      | [] => [[c]]
      | seg :: segs => (c :: seg) :: segs

/-- Modelled from the spec: the token header of section 4.2, missing from
jwt.go: the algorithm and the id of the signing key. -/
structure Header where
  alg : String
  kid : String
deriving DecidableEq, Repr

/-- Modelled from the spec: the JSON serialization of header and claims
(section 4.2), library code not in jwt.go.  Marshalling may fail, for a value
that is not JSON-representable; what it produces parses back to the value. -/
structure JsonCodec (Value : Type) where
  marshalHeader : Header → Result (List Byte)
  unmarshalHeader : List Byte → Option Header
  marshalClaims : ClaimSet Value → Result (List Byte)
  unmarshalClaims : List Byte → Option (ClaimSet Value)
  unmarshal_marshalHeader :
    ∀ h bs, marshalHeader h = .ok bs → unmarshalHeader bs = some h
  unmarshal_marshalClaims :
    ∀ c bs, marshalClaims c = .ok bs → unmarshalClaims bs = some c

/-- Modelled from the spec: the asymmetric signature primitive of sections
4.1 and 4.2, library code not in jwt.go.  Signing may fail, for a malformed key
or an unsupported algorithm; a signature it produces verifies against the
public key of the private key, over the same message and algorithm. -/
structure SignatureScheme (Priv Pub : Type) where
  publicOf : Priv → Pub
  sign : String → Priv → List Char → Result (List Byte)
  verify : String → Pub → List Char → List Byte → Bool
  verify_sign :
    ∀ alg sk msg sig, sign alg sk msg = .ok sig → verify alg (publicOf sk) msg sig = true

namespace service

/-- Modelled from the spec: the `KeyPair` of section 3, missing from jwt.go. -/
structure KeyPair (Priv Pub : Type) where
  id : String
  algorithm : String
  privateKey : Priv
  publicKey : Pub
deriving DecidableEq, Repr

/-- Modelled from the spec: the `KeyStore` of section 3, missing from
jwt.go: the key pairs and the id of the one that signs new tokens. -/
structure KeyStore (Priv Pub : Type) where
  keys : List (KeyPair Priv Pub)
  currentKeyID : String
deriving DecidableEq, Repr

/-- Modelled from the spec: an entry of the `PublicKeySet` of section 3,
missing from jwt.go: the public material of a key pair with its id and
algorithm. -/
structure PublicKey (Pub : Type) where
  id : String
  algorithm : String
  publicKey : Pub
deriving DecidableEq, Repr

variable {Priv Pub : Type}

/-- Modelled from the spec: the operation `Initialize` of section 4.1,
missing from jwt.go: the store holds the one generated key pair, which is the
current one. -/
def KeyStore.Initialize (generated : KeyPair Priv Pub) : KeyStore Priv Pub :=
  { keys := [generated], currentKeyID := generated.id }

/-- Modelled from the spec: the operation `GetSigningKey` of section 4.1,
missing from jwt.go: the current key pair, `none` in a store that has none. -/
def KeyStore.GetSigningKey (ks : KeyStore Priv Pub) : Option (KeyPair Priv Pub) :=
  ks.keys.find? (fun k => k.id == ks.currentKeyID)

/-- Modelled from the spec: the operation `GetPublicKeySet` of section 4.1,
missing from jwt.go: the public projection of every key pair. -/
def KeyStore.GetPublicKeySet (ks : KeyStore Priv Pub) : List (PublicKey Pub) :=
  ks.keys.map (fun k => { id := k.id, algorithm := k.algorithm, publicKey := k.publicKey })

/-- Modelled from the spec: the invariants of section 3 on a key store that
is `Ready`, whose code is missing from jwt.go: the current id names a key pair
of the store, and the public key of every pair is the one of its private key. -/
def KeyStore.Ready (S : SignatureScheme Priv Pub) (ks : KeyStore Priv Pub) : Prop :=
  (∃ k ∈ ks.keys, k.id = ks.currentKeyID)
    ∧ ∀ k ∈ ks.keys, k.publicKey = S.publicOf k.privateKey

end service

namespace jwt

variable {Priv Pub Value : Type}

/-- Modelled from the spec: the injection of standard claims of section 4.2,
missing from jwt.go: a standard claim replaces the caller's claim of the same
name, every other claim of the caller passes through. -/
def injectStandard (standard claims : ClaimSet Value) : ClaimSet Value :=
  claims.filter (fun kv => !(standard.any (fun s => s.1 == kv.1))) ++ standard

/-- Modelled from the spec: the Token Builder of section 4.2, the function
`jwt.CreateToken` missing from jwt.go.  The header names the algorithm and the
id of the key; header and claims are serialized and base64url-encoded and
joined with a dot; the signature over that text is the third segment.
`standard` is the set of standard claims the policy injects. -/
def CreateToken (S : SignatureScheme Priv Pub) (J : JsonCodec Value)
    (standard : ClaimSet Value) (claims : ClaimSet Value)
    (key : Option (service.KeyPair Priv Pub)) : Result String :=
  match key with
  | none => .error { msg := "no signing key" }
  | some k =>
    match J.marshalHeader { alg := k.algorithm, kid := k.id } with
    | .error err => .error err
    | .ok hs =>
      match J.marshalClaims (injectStandard standard claims) with
      | .error err => .error err
      | .ok ps =>
        let signingInput := base64urlEncode hs ++ '.' :: base64urlEncode ps
        match S.sign k.algorithm k.privateKey signingInput with
        | .error err => .error err
        | .ok sig => .ok (String.mk (signingInput ++ '.' :: base64urlEncode sig))

/-- Modelled from the spec: the header a verifier reads from a token, whose
code is missing from jwt.go: the first segment, decoded and parsed. -/
def tokenHeader (J : JsonCodec Value) (token : String) : Option Header :=
  match splitDots token.data with
  | [h, _, _] =>
    match base64urlDecode h with
    | some hs => J.unmarshalHeader hs
    | none => none
  | _ => none

/-- Modelled from the spec: the verification of section 8, done by a relying
party and missing from jwt.go: the key is the entry of the public key set with
the id of the header's `kid`, the signature is checked over the first two
segments with that key, and the claims are the parsed payload. -/
def Verify (S : SignatureScheme Priv Pub) (J : JsonCodec Value)
    (keySet : List (service.PublicKey Pub)) (token : String) : Option (ClaimSet Value) :=
  match splitDots token.data with
  | [h, p, s] =>
    match tokenHeader J token with
    | none => none
    | some header =>
      match keySet.find? (fun pk => pk.id == header.kid) with
      | none => none
      | some pk =>
        match base64urlDecode s, base64urlDecode p with
        | some sig, some ps =>
          if pk.algorithm = header.alg ∧ S.verify pk.algorithm pk.publicKey (h ++ '.' :: p) sig
          then J.unmarshalClaims ps
          else none
        | _, _ => none
  | _ => none

/-- Modelled from the spec: the collaborators of `Post` with the key store
of section 4.1 and the Token Builder of section 4.2 in the places of
`GetSigningKey` and `jwt.CreateToken`, which are missing from jwt.go. -/
def specEnv (S : SignatureScheme Priv Pub) (J : JsonCodec Value) (standard : ClaimSet Value)
    (unmarshal : Request → Result (ClaimSet Value)) (marshal : Payload → Option GoError) :
    Env (ClaimSet Value) (Option (service.KeyPair Priv Pub)) (service.KeyStore Priv Pub) where
  jsonUnmarshal := unmarshal
  GetSigningKey := service.KeyStore.GetSigningKey
  CreateToken := CreateToken S J standard
  jsonMarshal := marshal

end jwt

/-- The octets of a text of ASCII characters. -/
def asciiBytes (s : String) : List Byte :=
  s.data.map (fun c => Fin.ofNat c.toNat)

/-- A textbook RSA private key with its public exponent: modulus `n`, private
exponent `d`, public exponent `e`. -/
structure ToyRsaKey where
  n : Nat
  d : Nat
  e : Nat
deriving DecidableEq, Repr

/-- The digest the toy scheme signs: the sum of the character codes. -/
def toyDigest (msg : List Char) : Nat :=
  (msg.map Char.toNat).sum

/-- Textbook RSA over a one-octet modulus, as an example of a signature
scheme: the signature of a message is its digest to the power `d`, checked by
raising it to the power `e`.  Signing checks its own result, so that a
malformed key makes it fail. -/
def toyRsa : SignatureScheme ToyRsaKey (Nat × Nat) where
  publicOf := fun sk => (sk.n, sk.e)
  sign := fun _ sk msg =>
    let sig : List Byte := [Fin.ofNat ((toyDigest msg % sk.n) ^ sk.d % sk.n)]
    if ((toyDigest msg % sk.n) ^ sk.d % sk.n % 256) ^ sk.e % sk.n = toyDigest msg % sk.n
    then .ok sig
    else .error { msg := "malformed private key" }
  verify := fun _ pk msg sig =>
    match sig with
    | [s] => decide (s.val ^ pk.2 % pk.1 = toyDigest msg % pk.1)
    | _ => false
  verify_sign := by
    intro alg sk msg sig h
    dsimp only at h
    split at h
    · rename_i hok
      cases h
      simpa [Fin.ofNat] using hok
    · cases h

/-- The claims of the example request. -/
def demoClaims : ClaimSet String := [("sub", "user-1")]

/-- An example of a JSON codec: it serializes the header and the claims of
the example and fails for any other value. -/
def demoCodec : JsonCodec String where
  marshalHeader := fun h =>
    if h = { alg := "RS256", kid := "key-1" }
    then .ok (asciiBytes "\x7b\"alg\":\"RS256\",\"kid\":\"key-1\"\x7d")
    else .error { msg := "json: unsupported value" }
  unmarshalHeader := fun bs =>
    if bs = asciiBytes "\x7b\"alg\":\"RS256\",\"kid\":\"key-1\"\x7d"
    then some { alg := "RS256", kid := "key-1" }
    else none
  marshalClaims := fun c =>
    if c = demoClaims
    then .ok (asciiBytes "\x7b\"sub\":\"user-1\"\x7d")
    else .error { msg := "json: unsupported value" }
  unmarshalClaims := fun bs =>
    if bs = asciiBytes "\x7b\"sub\":\"user-1\"\x7d"
    then some demoClaims
    else none
  unmarshal_marshalHeader := by
    intro h bs hm
    dsimp only at hm
    split at hm
    · rename_i hh
      cases hm
      simp [hh]
    · cases hm
  unmarshal_marshalClaims := by
    intro c bs hm
    dsimp only at hm
    split at hm
    · rename_i hc
      cases hm
      simp [hc]
    · cases hm

/-- The key pair of the example: the RSA key with primes 11 and 23. -/
def demoKeyPair : service.KeyPair ToyRsaKey (Nat × Nat) :=
  { id := "key-1", algorithm := "RS256",
    privateKey := { n := 253, d := 147, e := 3 },
    publicKey := (253, 3) }

/-- The key store of the example, initialized with `demoKeyPair`. -/
def demoKeyStore : service.KeyStore ToyRsaKey (Nat × Nat) :=
  service.KeyStore.Initialize demoKeyPair

/-- The decoder of the example: the body with the claims sub = user-1
decodes, any other body is rejected. -/
def demoUnmarshal (r : Request) : Result (ClaimSet String) :=
  if r.Body = "\x7b\"sub\":\"user-1\"\x7d" then .ok demoClaims
  else .error { msg := "unexpected end of JSON input" }

/-- The response writer of the example: every write succeeds. -/
def demoMarshal (_ : Payload) : Option GoError := none

/-! ## Theorems -/

section Lemmas

variable {Claims Key KeyStore Logger : Type}

/-- The receiver of `Post` is unchanged. -/
theorem Post_handler_eq (env : Env Claims Key KeyStore) (j : JWTHandler KeyStore Logger)
    (r : Request) : (Post env j r).handler = j := by
  unfold Post
  cases env.jsonUnmarshal r with
  | error e =>
    dsimp only
    cases env.jsonMarshal (Payload.errorResponse "Failed to read claims" e.Error) <;> rfl
  | ok C =>
    dsimp only
    cases env.CreateToken C (env.GetSigningKey j.keyStore) with
    | error e =>
      dsimp only
      cases env.jsonMarshal (Payload.errorResponse "Failed to generate JWT" e.Error) <;> rfl
    | ok t =>
      dsimp only
      cases env.jsonMarshal (Payload.jwtResponse t) <;> rfl

/-- The calls of `Post` when the claims do not decode. -/
theorem Post_trace_of_decode_error (env : Env Claims Key KeyStore)
    (j : JWTHandler KeyStore Logger) (r : Request) (e : GoError)
    (hdec : env.jsonUnmarshal r = .error e) :
    (Post env j r).trace =
      [.headerSet "Content-Type" "application/json",
       .jsonUnmarshal r (.error e),
       .logError "failed to read claims" e,
       .writeHeader 400,
       .jsonMarshal (.errorResponse "Failed to read claims" e.Error)
         (env.jsonMarshal (.errorResponse "Failed to read claims" e.Error))]
      ++ writeFailureLog (env.jsonMarshal (.errorResponse "Failed to read claims" e.Error)) := by
  unfold Post
  rw [hdec]
  dsimp only
  cases env.jsonMarshal (Payload.errorResponse "Failed to read claims" e.Error) <;> rfl

/-- The calls of `Post` when the claims decode and signing fails. -/
theorem Post_trace_of_sign_error (env : Env Claims Key KeyStore)
    (j : JWTHandler KeyStore Logger) (r : Request) (C : Claims) (e : GoError)
    (hdec : env.jsonUnmarshal r = .ok C)
    (htok : env.CreateToken C (env.GetSigningKey j.keyStore) = .error e) :
    (Post env j r).trace =
      [.headerSet "Content-Type" "application/json",
       .jsonUnmarshal r (.ok C),
       .keyStore .GetSigningKey,
       .createToken C (env.GetSigningKey j.keyStore) (.error e),
       .logError "failed to generate JWT" e,
       .writeHeader 400,
       .jsonMarshal (.errorResponse "Failed to generate JWT" e.Error)
         (env.jsonMarshal (.errorResponse "Failed to generate JWT" e.Error))]
      ++ writeFailureLog (env.jsonMarshal (.errorResponse "Failed to generate JWT" e.Error)) := by
  unfold Post
  rw [hdec]
  dsimp only
  rw [htok]
  dsimp only
  cases env.jsonMarshal (Payload.errorResponse "Failed to generate JWT" e.Error) <;> rfl

/-- The calls of `Post` when the claims decode, signing succeeds and the
response is written. -/
theorem Post_trace_of_written (env : Env Claims Key KeyStore)
    (j : JWTHandler KeyStore Logger) (r : Request) (C : Claims) (t : String)
    (hdec : env.jsonUnmarshal r = .ok C)
    (htok : env.CreateToken C (env.GetSigningKey j.keyStore) = .ok t)
    (hwr : env.jsonMarshal (.jwtResponse t) = none) :
    (Post env j r).trace =
      [.headerSet "Content-Type" "application/json",
       .jsonUnmarshal r (.ok C),
       .keyStore .GetSigningKey,
       .createToken C (env.GetSigningKey j.keyStore) (.ok t),
       .jsonMarshal (.jwtResponse t) none,
       .writeHeader 200] := by
  unfold Post
  rw [hdec]
  dsimp only
  rw [htok]
  dsimp only
  rw [hwr]
  rfl

/-- The calls of `Post` when the claims decode, signing succeeds and writing
the response fails. -/
theorem Post_trace_of_write_error (env : Env Claims Key KeyStore)
    (j : JWTHandler KeyStore Logger) (r : Request) (C : Claims) (t : String) (e : GoError)
    (hdec : env.jsonUnmarshal r = .ok C)
    (htok : env.CreateToken C (env.GetSigningKey j.keyStore) = .ok t)
    (hwr : env.jsonMarshal (.jwtResponse t) = some e) :
    (Post env j r).trace =
      [.headerSet "Content-Type" "application/json",
       .jsonUnmarshal r (.ok C),
       .keyStore .GetSigningKey,
       .createToken C (env.GetSigningKey j.keyStore) (.ok t),
       .jsonMarshal (.jwtResponse t) (some e),
       .logError "Failed write JSON response" e] := by
  unfold Post
  rw [hdec]
  dsimp only
  rw [htok]
  dsimp only
  rw [hwr]
  rfl

end Lemmas

section TokenLemmas

/-- The six-bit value of the character of a six-bit value. -/
theorem decodeSextet_encodeSextet (n : Nat) (h : n < 64) :
    decodeSextet (encodeSextet n) = some n := by
  have key : ∀ m : Fin 64, decodeSextet (encodeSextet m.val) = some m.val := by decide
  exact key ⟨n, h⟩

/-- No base64url character is the dot. -/
theorem encodeSextet_ne_dot (n : Nat) : encodeSextet n ≠ '.' := by
  by_cases h : n < 64
  · have key : ∀ m : Fin 64, encodeSextet m.val ≠ '.' := by decide
    exact key ⟨n, h⟩
  · have hlen : base64urlAlphabet.length = 64 := by decide
    have hA : encodeSextet n = 'A' := by
      unfold encodeSextet
      rw [List.getD_eq_default]
      omega
    rw [hA]
    decide

/-- Decoding undoes base64url encoding. -/
theorem base64urlDecode_encode (bs : List Byte) :
    base64urlDecode (base64urlEncode bs) = some bs := by
  induction bs using base64urlEncode.induct with
  | case1 a b c rest ih =>
    have ha := a.isLt
    have hb := b.isLt
    have hc := c.isLt
    simp only [base64urlEncode, base64urlDecode]
    rw [decodeSextet_encodeSextet _ (by omega), decodeSextet_encodeSextet _ (by omega),
      decodeSextet_encodeSextet _ (by omega), decodeSextet_encodeSextet _ (by omega), ih]
    simp only [Option.some.injEq, List.cons.injEq, and_true]
    refine ⟨?_, ?_, ?_⟩ <;> apply Fin.ext <;> simp [Fin.ofNat] <;> omega
  | case2 a b =>
    have ha := a.isLt
    have hb := b.isLt
    simp only [base64urlEncode, base64urlDecode]
    rw [decodeSextet_encodeSextet _ (by omega), decodeSextet_encodeSextet _ (by omega),
      decodeSextet_encodeSextet _ (by omega)]
    simp only [Option.some.injEq, List.cons.injEq, and_true]
    refine ⟨?_, ?_⟩ <;> apply Fin.ext <;> simp [Fin.ofNat] <;> omega
  | case3 a =>
    have ha := a.isLt
    simp only [base64urlEncode, base64urlDecode]
    rw [decodeSextet_encodeSextet _ (by omega), decodeSextet_encodeSextet _ (by omega)]
    simp only [Option.some.injEq, List.cons.injEq, and_true]
    apply Fin.ext
    simp [Fin.ofNat]
    omega
  | case4 => rfl

/-- A base64url text has no dot. -/
theorem base64urlEncode_no_dot (bs : List Byte) : ∀ c ∈ base64urlEncode bs, c ≠ '.' := by
  induction bs using base64urlEncode.induct with
  | case1 a b c rest ih =>
    intro ch hch
    simp only [base64urlEncode, List.mem_cons] at hch
    rcases hch with h | h | h | h | h
    · rw [h]; exact encodeSextet_ne_dot _
    · rw [h]; exact encodeSextet_ne_dot _
    · rw [h]; exact encodeSextet_ne_dot _
    · rw [h]; exact encodeSextet_ne_dot _
    · exact ih ch h
  | case2 a b =>
    intro ch hch
    simp only [base64urlEncode, List.mem_cons, List.not_mem_nil, or_false] at hch
    rcases hch with h | h | h <;> rw [h] <;> exact encodeSextet_ne_dot _
  | case3 a =>
    intro ch hch
    simp only [base64urlEncode, List.mem_cons, List.not_mem_nil, or_false] at hch
    rcases hch with h | h <;> rw [h] <;> exact encodeSextet_ne_dot _
  | case4 =>
    intro ch hch
    simp [base64urlEncode] at hch

/-- The first segment of a text that starts with a dot-free part and a dot. -/
theorem splitDots_append_dot (a rest : List Char) (ha : ∀ c ∈ a, c ≠ '.') :
    splitDots (a ++ '.' :: rest) = a :: splitDots rest := by
  induction a with
  | nil => simp [splitDots]
  | cons c cs ih =>
    have hc : c ≠ '.' := ha c (List.mem_cons_self _ _)
    have ih2 := ih (fun x hx => ha x (List.mem_cons_of_mem _ hx))
    simp [splitDots, hc, ih2]

/-- A dot-free text is one segment. -/
theorem splitDots_no_dot (a : List Char) (ha : ∀ c ∈ a, c ≠ '.') :
    splitDots a = [a] := by
  induction a with
  | nil => rfl
  | cons c cs ih =>
    have hc : c ≠ '.' := ha c (List.mem_cons_self _ _)
    have ih2 := ih (fun x hx => ha x (List.mem_cons_of_mem _ hx))
    simp [splitDots, hc, ih2]

/-- The segments of a token assembled from three base64url texts. -/
theorem splitDots_token (hs ps sig : List Byte) :
    splitDots (base64urlEncode hs ++ '.' :: base64urlEncode ps ++ '.' :: base64urlEncode sig)
      = [base64urlEncode hs, base64urlEncode ps, base64urlEncode sig] := by
  have e : base64urlEncode hs ++ '.' :: base64urlEncode ps ++ '.' :: base64urlEncode sig
      = base64urlEncode hs ++ '.' :: (base64urlEncode ps ++ '.' :: base64urlEncode sig) := by
    simp
  rw [e, splitDots_append_dot _ _ (base64urlEncode_no_dot hs),
    splitDots_append_dot _ _ (base64urlEncode_no_dot ps),
    splitDots_no_dot _ (base64urlEncode_no_dot sig)]

variable {Priv Pub Value : Type}

/-- The entry of the public key set with the id of the signing key is the
public projection of the signing key. -/
theorem find_publicKey_of_signingKey (ks : service.KeyStore Priv Pub)
    (k : service.KeyPair Priv Pub) (hk : ks.GetSigningKey = some k) :
    ks.GetPublicKeySet.find? (fun pk => pk.id == k.id)
      = some { id := k.id, algorithm := k.algorithm, publicKey := k.publicKey } := by
  unfold service.KeyStore.GetSigningKey at hk
  have hid : k.id = ks.currentKeyID := by
    have := List.find?_some hk
    simpa using this
  unfold service.KeyStore.GetPublicKeySet
  rw [List.find?_map]
  have hp : ((fun pk : service.PublicKey Pub => pk.id == k.id)
      ∘ fun k : service.KeyPair Priv Pub =>
        ({ id := k.id, algorithm := k.algorithm, publicKey := k.publicKey } :
          service.PublicKey Pub))
      = fun k => k.id == ks.currentKeyID := by
    funext x
    simp [hid]
  rw [hp, hk]
  rfl

/-- A name looked up in the claims after injection: the standard claim of
that name when there is one, the caller's otherwise. -/
theorem lookup_injectStandard (standard claims : ClaimSet Value) (name : String) :
    (jwt.injectStandard standard claims).lookup name
      = match standard.lookup name with
        | some v => some v
        | none => claims.lookup name := by
  unfold jwt.injectStandard
  induction claims with
  | nil =>
    simp only [List.filter_nil, List.nil_append, List.lookup_nil]
    cases standard.lookup name <;> rfl
  | cons kv rest ih =>
    obtain ⟨key, v⟩ := kv
    by_cases hstd : standard.any (fun s => s.1 == key) = true
    · have hf : List.filter (fun kv => !(standard.any (fun s => s.1 == kv.1))) ((key, v) :: rest)
          = List.filter (fun kv => !(standard.any (fun s => s.1 == kv.1))) rest := by
        simp [List.filter_cons, hstd]
      rw [hf, ih]
      by_cases hname : name = key
      · subst hname
        have hsome : ∃ w, standard.lookup name = some w := by
          clear ih hf
          induction standard with
          | nil => simp at hstd
          | cons s ss ihs =>
            obtain ⟨sk, sv⟩ := s
            by_cases hsk : name = sk
            · subst hsk
              exact ⟨sv, by simp [List.lookup]⟩
            · have hne : (name == sk) = false := by simpa using hsk
              have hne2 : (sk == name) = false := by
                simpa using fun h : sk = name => hsk h.symm
              simp only [List.any_cons, hne2, Bool.false_or] at hstd
              obtain ⟨w, hw⟩ := ihs hstd
              exact ⟨w, by simp [List.lookup, hne, hw]⟩
        obtain ⟨w, hw⟩ := hsome
        simp [hw]
      · have hne : (name == key) = false := by simpa using hname
        simp [List.lookup, hne]
    · have hstd2 : standard.any (fun s => s.1 == key) = false := Bool.eq_false_iff.mpr hstd
      have hf : List.filter (fun kv => !(standard.any (fun s => s.1 == kv.1))) ((key, v) :: rest)
          = (key, v) :: List.filter (fun kv => !(standard.any (fun s => s.1 == kv.1))) rest := by
        simp [List.filter_cons, hstd2]
      rw [hf]
      by_cases hname : name = key
      · subst hname
        have hnone : standard.lookup name = none := by
          clear ih hf hstd
          induction standard with
          | nil => rfl
          | cons s ss ihs =>
            obtain ⟨sk, sv⟩ := s
            simp only [List.any_cons, Bool.or_eq_false_iff] at hstd2
            have hne : (name == sk) = false := by
              have h1 := hstd2.1
              simp only [beq_eq_false_iff_ne, ne_eq] at h1 ⊢
              exact fun h => h1 h.symm
            simp [List.lookup, hne, ihs hstd2.2]
        simp [List.lookup, hnone]
      · have hne : (name == key) = false := by simpa using hname
        simp only [List.cons_append, List.lookup, hne]
        exact ih

end TokenLemmas

section Claims

variable {Claims Key KeyStore Logger : Type}

/-- C1, amended: when the body decodes into claims `C`, `jwt.CreateToken(C, k)`
returns the token `t`, with `k` the signing key of the key store given to
`NewJWTHandler`, and the `jsonMarshal` of the response returns no error, the
response body is exactly `jwtResponse` with `Token` equal to `t`, the JSON
object with the single field `token` holding `t` unmodified, and the status of
the response is 200: no other status code is written. -/
theorem Post_success_response (env : Env Claims Key KeyStore) (keyStore : KeyStore)
    (logger : Logger) (r : Request) (C : Claims) (t : String)
    (hdec : env.jsonUnmarshal r = .ok C)
    (htok : env.CreateToken C (env.GetSigningKey keyStore) = .ok t)
    (hwr : env.jsonMarshal (Payload.jwtResponse t) = none) :
    (response (Post env (NewJWTHandler keyStore logger) r).trace).marshalled
        = [(Payload.jwtResponse t, none)]
      ∧ (response (Post env (NewJWTHandler keyStore logger) r).trace).Body
        = [Payload.jwtResponse t]
      ∧ (Payload.jwtResponse t).fields = [("token", t)]
      ∧ (response (Post env (NewJWTHandler keyStore logger) r).trace).code = some 200
      ∧ (response (Post env (NewJWTHandler keyStore logger) r).trace).Status = 200
      ∧ ∀ c, Event.writeHeader c ∈ (Post env (NewJWTHandler keyStore logger) r).trace →
          c = 200 := by
  rw [Post_trace_of_written env (NewJWTHandler keyStore logger) r C t hdec htok hwr]
  exact ⟨rfl, rfl, rfl, rfl, rfl, by simp⟩

/-- The theorem `Post_success_response` at the request with claims
sub = user-1. -/
theorem Post_success_response_witness :
    demoEnv.jsonUnmarshal demoRequest = .ok [("sub", "user-1")]
      ∧ demoEnv.CreateToken [("sub", "user-1")] (demoEnv.GetSigningKey "store")
        = .ok "header.user-1.store/current"
      ∧ demoEnv.jsonMarshal (Payload.jwtResponse "header.user-1.store/current") = none
      ∧ (response (Post demoEnv (NewJWTHandler "store" ()) demoRequest).trace).Body
        = [Payload.jwtResponse "header.user-1.store/current"]
      ∧ (response (Post demoEnv (NewJWTHandler "store" ()) demoRequest).trace).code
        = some 200 :=
  ⟨by decide, by decide, by decide,
    (Post_success_response demoEnv "store" () demoRequest [("sub", "user-1")]
      "header.user-1.store/current" (by decide) (by decide) (by decide)).2.1,
    (Post_success_response demoEnv "store" () demoRequest [("sub", "user-1")]
      "header.user-1.store/current" (by decide) (by decide) (by decide)).2.2.2.1⟩

/-- C1 as stated fails when the write of the response fails: on a writer
whose writes fail the claims decode and the token is created, yet the response
body is not the `jwtResponse`; no body and no status code is written, and the
error of the write is logged. -/
theorem Post_success_response_counterexample :
    brokenPipeEnv.jsonUnmarshal demoRequest = .ok [("sub", "user-1")]
      ∧ brokenPipeEnv.CreateToken [("sub", "user-1")] (brokenPipeEnv.GetSigningKey "store")
        = .ok "header.user-1.store/current"
      ∧ (response (Post brokenPipeEnv (NewJWTHandler "store" ()) demoRequest).trace).Body
        ≠ [Payload.jwtResponse "header.user-1.store/current"]
      ∧ (response (Post brokenPipeEnv (NewJWTHandler "store" ()) demoRequest).trace).Body = []
      ∧ (response (Post brokenPipeEnv (NewJWTHandler "store" ()) demoRequest).trace).code = none
      ∧ (Post brokenPipeEnv (NewJWTHandler "store" ()) demoRequest).trace.getLast?
        = some (.logError "Failed write JSON response" { msg := "write: broken pipe" }) := by
  decide

/-- C2, amended: when the body fails to decode with error `e`, `Post` writes
status 400 and marshals `errorResponse` with `Message` equal to
"Failed to read claims" and `Error` equal to `e.Error()`, an object with a
`message` and an `error` field, which is the response body when that
`jsonMarshal` returns no error; it calls neither the key store nor
`jwt.CreateToken` and marshals no `jwtResponse`. -/
theorem Post_decode_failure (env : Env Claims Key KeyStore) (j : JWTHandler KeyStore Logger)
    (r : Request) (e : GoError) (hdec : env.jsonUnmarshal r = .error e) :
    (response (Post env j r).trace).code = some 400
      ∧ (response (Post env j r).trace).Status = 400
      ∧ (response (Post env j r).trace).marshalled
        = [(Payload.errorResponse "Failed to read claims" e.Error,
            env.jsonMarshal (Payload.errorResponse "Failed to read claims" e.Error))]
      ∧ (env.jsonMarshal (Payload.errorResponse "Failed to read claims" e.Error) = none →
          (response (Post env j r).trace).Body
            = [Payload.errorResponse "Failed to read claims" e.Error])
      ∧ (Payload.errorResponse "Failed to read claims" e.Error).fields
        = [("message", "Failed to read claims"), ("error", e.Error)]
      ∧ (Post env j r).trace.filter Event.isKeyStore = []
      ∧ (Post env j r).trace.filter Event.isCreateToken = []
      ∧ ∀ t res, Event.jsonMarshal (Payload.jwtResponse t) res ∉ (Post env j r).trace := by
  rw [Post_trace_of_decode_error env j r e hdec]
  cases env.jsonMarshal (Payload.errorResponse "Failed to read claims" e.Error) with
  | none =>
    exact ⟨rfl, rfl, rfl, (fun _ => rfl), rfl, rfl, rfl, by simp [writeFailureLog]⟩
  | some e2 =>
    exact ⟨rfl, rfl, rfl, (fun h => nomatch h), rfl, rfl, rfl, by simp [writeFailureLog]⟩

/-- The theorem `Post_decode_failure` at a request with a truncated body. -/
theorem Post_decode_failure_witness :
    demoEnv.jsonUnmarshal truncatedRequest = .error { msg := "unexpected end of JSON input" }
      ∧ (response (Post demoEnv demoHandler truncatedRequest).trace).code = some 400
      ∧ (response (Post demoEnv demoHandler truncatedRequest).trace).Body
        = [Payload.errorResponse "Failed to read claims" "unexpected end of JSON input"]
      ∧ (Post demoEnv demoHandler truncatedRequest).trace.filter Event.isCreateToken = [] :=
  ⟨by decide,
    (Post_decode_failure demoEnv demoHandler truncatedRequest
      { msg := "unexpected end of JSON input" } (by decide)).1,
    (Post_decode_failure demoEnv demoHandler truncatedRequest
      { msg := "unexpected end of JSON input" } (by decide)).2.2.2.1 (by decide),
    (Post_decode_failure demoEnv demoHandler truncatedRequest
      { msg := "unexpected end of JSON input" } (by decide)).2.2.2.2.2.2.1⟩

/-- C2 as stated fails when the write of the error response fails: on a
writer whose writes fail the body does not decode, status 400 is written, yet
the response body is not the `errorResponse`: no body is written. -/
theorem Post_decode_failure_counterexample :
    brokenPipeEnv.jsonUnmarshal truncatedRequest
        = .error { msg := "unexpected end of JSON input" }
      ∧ (response (Post brokenPipeEnv demoHandler truncatedRequest).trace).Body
        ≠ [Payload.errorResponse "Failed to read claims" "unexpected end of JSON input"]
      ∧ (response (Post brokenPipeEnv demoHandler truncatedRequest).trace).Body = []
      ∧ (response (Post brokenPipeEnv demoHandler truncatedRequest).trace).code = some 400 := by
  decide

/-- C3, amended: when the body decodes into claims `C` and `jwt.CreateToken`
returns the error `e`, `Post` writes status 400 and marshals `errorResponse`
with `Message` equal to "Failed to generate JWT" and `Error` equal to
`e.Error()`, which is the response body when that `jsonMarshal` returns no
error; no `jwtResponse` is marshalled and the body has no `token` field. -/
theorem Post_sign_failure (env : Env Claims Key KeyStore) (j : JWTHandler KeyStore Logger)
    (r : Request) (C : Claims) (e : GoError)
    (hdec : env.jsonUnmarshal r = .ok C)
    (htok : env.CreateToken C (env.GetSigningKey j.keyStore) = .error e) :
    (response (Post env j r).trace).code = some 400
      ∧ (response (Post env j r).trace).Status = 400
      ∧ (response (Post env j r).trace).marshalled
        = [(Payload.errorResponse "Failed to generate JWT" e.Error,
            env.jsonMarshal (Payload.errorResponse "Failed to generate JWT" e.Error))]
      ∧ (env.jsonMarshal (Payload.errorResponse "Failed to generate JWT" e.Error) = none →
          (response (Post env j r).trace).Body
            = [Payload.errorResponse "Failed to generate JWT" e.Error])
      ∧ (Payload.errorResponse "Failed to generate JWT" e.Error).fields
        = [("message", "Failed to generate JWT"), ("error", e.Error)]
      ∧ (∀ t res, Event.jsonMarshal (Payload.jwtResponse t) res ∉ (Post env j r).trace)
      ∧ ∀ v ∈ (response (Post env j r).trace).Body, v.fields.lookup "token" = none := by
  rw [Post_trace_of_sign_error env j r C e hdec htok]
  cases env.jsonMarshal (Payload.errorResponse "Failed to generate JWT" e.Error) with
  | none =>
    refine ⟨rfl, rfl, rfl, (fun _ => rfl), rfl, by simp [writeFailureLog], ?_⟩
    intro v hv
    have hb : v = Payload.errorResponse "Failed to generate JWT" e.Error :=
      List.mem_singleton.mp hv
    subst hb
    rfl
  | some e2 =>
    refine ⟨rfl, rfl, rfl, (fun h => nomatch h), rfl, by simp [writeFailureLog], ?_⟩
    intro v hv
    exact absurd hv (List.not_mem_nil v)

/-- The theorem `Post_sign_failure` at a request whose claims the token
builder rejects. -/
theorem Post_sign_failure_witness :
    demoEnv.jsonUnmarshal rejectedRequest = .ok [("alg", "none")]
      ∧ demoEnv.CreateToken [("alg", "none")] (demoEnv.GetSigningKey demoHandler.keyStore)
        = .error { msg := "unsupported algorithm" }
      ∧ (response (Post demoEnv demoHandler rejectedRequest).trace).code = some 400
      ∧ (response (Post demoEnv demoHandler rejectedRequest).trace).Body
        = [Payload.errorResponse "Failed to generate JWT" "unsupported algorithm"] :=
  ⟨by decide, by decide,
    (Post_sign_failure demoEnv demoHandler rejectedRequest [("alg", "none")]
      { msg := "unsupported algorithm" } (by decide) (by decide)).1,
    (Post_sign_failure demoEnv demoHandler rejectedRequest [("alg", "none")]
      { msg := "unsupported algorithm" } (by decide) (by decide)).2.2.2.1 (by decide)⟩

/-- C3 as stated fails when the write of the error response fails: on a
writer whose writes fail the claims decode and signing fails, status 400 is
written, yet the response body is not the `errorResponse`: no body is
written. -/
theorem Post_sign_failure_counterexample :
    brokenPipeEnv.jsonUnmarshal rejectedRequest = .ok [("alg", "none")]
      ∧ brokenPipeEnv.CreateToken [("alg", "none")]
          (brokenPipeEnv.GetSigningKey demoHandler.keyStore)
        = .error { msg := "unsupported algorithm" }
      ∧ (response (Post brokenPipeEnv demoHandler rejectedRequest).trace).Body
        ≠ [Payload.errorResponse "Failed to generate JWT" "unsupported algorithm"]
      ∧ (response (Post brokenPipeEnv demoHandler rejectedRequest).trace).Body = []
      ∧ (response (Post brokenPipeEnv demoHandler rejectedRequest).trace).code = some 400 := by
  decide

/-- C4: on every path of `Post` the first call is
`w.Header().Set("Content-Type", "application/json")`, so it comes before every
`WriteHeader` and every `jsonMarshal` call on the writer; no later call sets a
header, and the header of the response is Content-Type: application/json. -/
theorem Post_content_type (env : Env Claims Key KeyStore) (j : JWTHandler KeyStore Logger)
    (r : Request) :
    (Post env j r).trace.head? = some (.headerSet "Content-Type" "application/json")
      ∧ (Post env j r).trace.tail.filter Event.isHeaderSet = []
      ∧ writerCalls (Post env j r).trace.tail = writerCalls (Post env j r).trace
      ∧ (response (Post env j r).trace).Header = [("Content-Type", "application/json")]
      ∧ (response (Post env j r).trace).Header.lookup "Content-Type"
        = some "application/json" := by
  cases hdec : env.jsonUnmarshal r with
  | error e =>
    rw [Post_trace_of_decode_error env j r e hdec]
    cases env.jsonMarshal (Payload.errorResponse "Failed to read claims" e.Error) <;>
      exact ⟨rfl, rfl, rfl, rfl, rfl⟩
  | ok C =>
    cases htok : env.CreateToken C (env.GetSigningKey j.keyStore) with
    | error e =>
      rw [Post_trace_of_sign_error env j r C e hdec htok]
      cases env.jsonMarshal (Payload.errorResponse "Failed to generate JWT" e.Error) <;>
        exact ⟨rfl, rfl, rfl, rfl, rfl⟩
    | ok t =>
      cases hwr : env.jsonMarshal (Payload.jwtResponse t) with
      | none =>
        rw [Post_trace_of_written env j r C t hdec htok hwr]
        exact ⟨rfl, rfl, rfl, rfl, rfl⟩
      | some e =>
        rw [Post_trace_of_write_error env j r C t e hdec htok hwr]
        exact ⟨rfl, rfl, rfl, rfl, rfl⟩

/-- C5, amended: on a mux with no handler registered for `JWTDefaultPath`,
which is "/generate-jwt", `RegisterDefaultPaths` adds exactly one entry to the
mux, at that path; for a request with method POST its handler is `Post` on
that request, and for any other method it calls `notFoundResponse` and nothing
else: no claims are decoded, no signing key is read and no token is
created. -/
theorem RegisterDefaultPaths_one_handler (env : Env Claims Key KeyStore)
    (j : JWTHandler KeyStore Logger) (api : ServeMux Claims Key KeyStore Logger)
    (hfresh : ∀ p ∈ api, p.1 ≠ JWTDefaultPath) :
    JWTDefaultPath = "/generate-jwt"
      ∧ ∃ h, RegisterDefaultPaths env j api = some (api ++ [(JWTDefaultPath, h)])
        ∧ (api ++ [(JWTDefaultPath, h)]).length = api.length + 1
        ∧ (∀ r : Request, r.Method = "POST" → h r = Post env j r)
        ∧ (∀ r : Request, r.Method ≠ "POST" →
            (h r).trace = [.notFoundResponse]
              ∧ (h r).handler = j
              ∧ (h r).trace.filter
                  (fun e => e.isJsonUnmarshal || e.isKeyStore || e.isCreateToken) = []) := by
  have hcond : ¬ (JWTDefaultPath = "" ∨ api.any (fun p => p.1 == JWTDefaultPath) = true) := by
    intro hc
    rcases hc with hc | hc
    · exact absurd hc (by decide)
    · rw [List.any_eq_true] at hc
      obtain ⟨q, hq, hqe⟩ := hc
      exact hfresh q hq (by simpa using hqe)
  refine ⟨rfl,
    (fun r => if r.Method = MethodPost then Post env j r
      else { handler := j, trace := [.notFoundResponse] }),
    ?_, by simp, ?_, ?_⟩
  · unfold RegisterDefaultPaths HandleFunc
    rw [if_neg hcond]
  · intro r hr
    simp [MethodPost, hr]
  · intro r hr
    simp [MethodPost, hr, Event.isJsonUnmarshal, Event.isKeyStore, Event.isCreateToken]

/-- The theorem `RegisterDefaultPaths_one_handler` on an empty mux: a POST
request runs `Post`, a GET request gets `notFoundResponse`. -/
theorem RegisterDefaultPaths_one_handler_witness :
    (∀ p ∈ ([] : ServeMux DemoClaims String String Unit), p.1 ≠ JWTDefaultPath)
      ∧ ∃ h, RegisterDefaultPaths demoEnv demoHandler [] = some [(JWTDefaultPath, h)]
        ∧ h demoRequest = Post demoEnv demoHandler demoRequest
        ∧ (h { Method := "GET", Body := "" }).trace = [.notFoundResponse] := by
  obtain ⟨_, h, hreg, _, hpost, hother⟩ :=
    RegisterDefaultPaths_one_handler demoEnv demoHandler [] (fun _ hp => nomatch hp)
  exact ⟨(fun _ hp => nomatch hp), h, hreg, hpost demoRequest (by decide),
    (hother { Method := "GET", Body := "" } (by decide)).1⟩

/-- C5 as stated fails on a mux that already has a handler for
`JWTDefaultPath`: the `HandleFunc` call panics and `RegisterDefaultPaths`
registers nothing. -/
theorem RegisterDefaultPaths_one_handler_counterexample :
    occupiedMux.map Prod.fst = ["/generate-jwt"]
      ∧ RegisterDefaultPaths demoEnv demoHandler occupiedMux = none := by
  exact ⟨rfl, rfl⟩

/-- C6, amended: in every run of `Post` the errors attached to the
error-level log entries are exactly the errors its steps returned, in order,
so an entry is logged if and only if a step (`jsonUnmarshal`,
`jwt.CreateToken`, `jsonMarshal`) returned an error; what the trace records
for a step is what the step returned; and a claim-decoding or signing error
`e` is logged and answered with status 400 and the `jsonMarshal` of an
`errorResponse` whose `Error` is `e.Error()`, which is the response body when
that `jsonMarshal` returns no error. -/
theorem Post_errors_logged (env : Env Claims Key KeyStore) (j : JWTHandler KeyStore Logger)
    (r : Request) :
    loggedErrors (Post env j r).trace = stepErrors (Post env j r).trace
      ∧ ((∃ msg err, Event.logError msg err ∈ (Post env j r).trace)
          ↔ ∃ ev ∈ (Post env j r).trace, ev.stepError ≠ none)
      ∧ (∀ ev ∈ (Post env j r).trace, ev.agrees env j.keyStore)
      ∧ (∀ e, (env.jsonUnmarshal r = .error e
            ∨ ∃ C, env.jsonUnmarshal r = .ok C
                ∧ env.CreateToken C (env.GetSigningKey j.keyStore) = .error e) →
          e ∈ loggedErrors (Post env j r).trace
            ∧ (response (Post env j r).trace).code = some 400
            ∧ (response (Post env j r).trace).Status = 400
            ∧ ∃ m, (response (Post env j r).trace).marshalled
                  = [(Payload.errorResponse m e.Error,
                      env.jsonMarshal (Payload.errorResponse m e.Error))]
                ∧ (env.jsonMarshal (Payload.errorResponse m e.Error) = none →
                    (response (Post env j r).trace).Body
                      = [Payload.errorResponse m e.Error])) := by
  cases hdec : env.jsonUnmarshal r with
  | error e =>
    rw [Post_trace_of_decode_error env j r e hdec]
    cases hm : env.jsonMarshal (Payload.errorResponse "Failed to read claims" e.Error) with
    | none =>
      refine ⟨rfl, ?_, ?_, ?_⟩
      · simp [writeFailureLog, Event.stepError, Result.err]
      · simp [writeFailureLog, Event.agrees, hdec, hm]
      · intro e2 h2
        rcases h2 with h2 | ⟨C, h2, _⟩
        · cases h2
          refine ⟨by simp [loggedErrors, writeFailureLog, Event.loggedError], rfl, rfl,
            "Failed to read claims", ?_, ?_⟩
          · rw [hm]
            rfl
          · intro _
            rfl
        · cases h2
    | some e3 =>
      refine ⟨rfl, ?_, ?_, ?_⟩
      · simp [writeFailureLog, Event.stepError, Result.err]
        exact ⟨_, _, Or.inl ⟨rfl, rfl⟩⟩
      · simp [writeFailureLog, Event.agrees, hdec, hm]
      · intro e2 h2
        rcases h2 with h2 | ⟨C, h2, _⟩
        · cases h2
          refine ⟨by simp [loggedErrors, writeFailureLog, Event.loggedError], rfl, rfl,
            "Failed to read claims", ?_, ?_⟩
          · rw [hm]
            rfl
          · intro hn
            rw [hm] at hn
            cases hn
        · cases h2
  | ok C =>
    cases htok : env.CreateToken C (env.GetSigningKey j.keyStore) with
    | error e =>
      rw [Post_trace_of_sign_error env j r C e hdec htok]
      cases hm : env.jsonMarshal (Payload.errorResponse "Failed to generate JWT" e.Error) with
      | none =>
        refine ⟨rfl, ?_, ?_, ?_⟩
        · simp [writeFailureLog, Event.stepError, Result.err]
        · simp [writeFailureLog, Event.agrees, hdec, hm, htok]
        · intro e2 h2
          rcases h2 with h2 | ⟨C2, h2, h3⟩
          · cases h2
          · cases h2
            rw [htok] at h3
            cases h3
            refine ⟨by simp [loggedErrors, writeFailureLog, Event.loggedError], rfl, rfl,
              "Failed to generate JWT", ?_, ?_⟩
            · rw [hm]
              rfl
            · intro _
              rfl
      | some e3 =>
        refine ⟨rfl, ?_, ?_, ?_⟩
        · simp [writeFailureLog, Event.stepError, Result.err]
          exact ⟨_, _, Or.inl ⟨rfl, rfl⟩⟩
        · simp [writeFailureLog, Event.agrees, hdec, hm, htok]
        · intro e2 h2
          rcases h2 with h2 | ⟨C2, h2, h3⟩
          · cases h2
          · cases h2
            rw [htok] at h3
            cases h3
            refine ⟨by simp [loggedErrors, writeFailureLog, Event.loggedError], rfl, rfl,
              "Failed to generate JWT", ?_, ?_⟩
            · rw [hm]
              rfl
            · intro hn
              rw [hm] at hn
              cases hn
    | ok t =>
      cases hwr : env.jsonMarshal (Payload.jwtResponse t) with
      | none =>
        rw [Post_trace_of_written env j r C t hdec htok hwr]
        refine ⟨rfl, ?_, ?_, ?_⟩
        · simp [Event.stepError, Result.err]
        · simp [Event.agrees, hdec, hwr, htok]
        · intro e2 h2
          rcases h2 with h2 | ⟨C2, h2, h3⟩
          · cases h2
          · cases h2
            rw [htok] at h3
            cases h3
      | some e =>
        rw [Post_trace_of_write_error env j r C t e hdec htok hwr]
        refine ⟨rfl, ?_, ?_, ?_⟩
        · simp [Event.stepError, Result.err]
        · simp [Event.agrees, hdec, hwr, htok]
        · intro e2 h2
          rcases h2 with h2 | ⟨C2, h2, h3⟩
          · cases h2
          · cases h2
            rw [htok] at h3
            cases h3

/-- The theorem `Post_errors_logged` at a truncated body: on a writer whose
writes fail both errors are logged and the status is 400; on a writer whose
writes succeed the body is the error response. -/
theorem Post_errors_logged_witness :
    loggedErrors (Post brokenPipeEnv demoHandler truncatedRequest).trace
        = [{ msg := "unexpected end of JSON input" }, { msg := "write: broken pipe" }]
      ∧ (response (Post brokenPipeEnv demoHandler truncatedRequest).trace).code = some 400
      ∧ ∃ m, (response (Post demoEnv demoHandler truncatedRequest).trace).Body
          = [Payload.errorResponse m "unexpected end of JSON input"] := by
  refine ⟨(Post_errors_logged brokenPipeEnv demoHandler truncatedRequest).1.trans (by decide),
    ((Post_errors_logged brokenPipeEnv demoHandler truncatedRequest).2.2.2
      { msg := "unexpected end of JSON input" } (Or.inl (by decide))).2.1, ?_⟩
  obtain ⟨_, _, _, m, _, hbody⟩ :=
    (Post_errors_logged demoEnv demoHandler truncatedRequest).2.2.2
      { msg := "unexpected end of JSON input" } (Or.inl (by decide))
  exact ⟨m, hbody rfl⟩

/-- C6 as stated fails when the write of the error response fails: on a
writer whose writes fail, the decoding error of a truncated body and the
signing error of rejected claims are logged and status 400 is written, yet no
`errorResponse` body is written. -/
theorem Post_errors_logged_counterexample :
    brokenPipeEnv.jsonUnmarshal truncatedRequest
        = .error { msg := "unexpected end of JSON input" }
      ∧ (∀ m, (response (Post brokenPipeEnv demoHandler truncatedRequest).trace).Body
          ≠ [Payload.errorResponse m "unexpected end of JSON input"])
      ∧ brokenPipeEnv.CreateToken [("alg", "none")]
          (brokenPipeEnv.GetSigningKey demoHandler.keyStore)
        = .error { msg := "unsupported algorithm" }
      ∧ (∀ m, (response (Post brokenPipeEnv demoHandler rejectedRequest).trace).Body
          ≠ [Payload.errorResponse m "unsupported algorithm"]) := by
  have h1 : (response (Post brokenPipeEnv demoHandler truncatedRequest).trace).Body = [] := by
    decide
  have h2 : (response (Post brokenPipeEnv demoHandler rejectedRequest).trace).Body = [] := by
    decide
  refine ⟨by decide, ?_, by decide, ?_⟩
  · intro m
    rw [h1]
    exact List.noConfusion
  · intro m
    rw [h2]
    exact List.noConfusion

/-- C7: `Post` leaves its receiver as it was, its `keyStore` and `logger`
fields included, on every path; every call it makes on the key store is
`GetSigningKey`, and it makes at most one. -/
theorem Post_frame (env : Env Claims Key KeyStore) (j : JWTHandler KeyStore Logger)
    (r : Request) :
    (Post env j r).handler = j
      ∧ (Post env j r).handler.keyStore = j.keyStore
      ∧ (Post env j r).handler.logger = j.logger
      ∧ (∀ op, Event.keyStore op ∈ (Post env j r).trace → op = KeyStoreOp.GetSigningKey)
      ∧ ((Post env j r).trace.filter Event.isKeyStore).length ≤ 1 := by
  refine ⟨Post_handler_eq env j r, by rw [Post_handler_eq], by rw [Post_handler_eq], ?_⟩
  cases hdec : env.jsonUnmarshal r with
  | error e =>
    rw [Post_trace_of_decode_error env j r e hdec]
    cases env.jsonMarshal (Payload.errorResponse "Failed to read claims" e.Error) <;>
      exact ⟨by simp [writeFailureLog], by simp [writeFailureLog, Event.isKeyStore]⟩
  | ok C =>
    cases htok : env.CreateToken C (env.GetSigningKey j.keyStore) with
    | error e =>
      rw [Post_trace_of_sign_error env j r C e hdec htok]
      cases env.jsonMarshal (Payload.errorResponse "Failed to generate JWT" e.Error) <;>
        exact ⟨by simp [writeFailureLog], by simp [writeFailureLog, Event.isKeyStore]⟩
    | ok t =>
      cases hwr : env.jsonMarshal (Payload.jwtResponse t) with
      | none =>
        rw [Post_trace_of_written env j r C t hdec htok hwr]
        exact ⟨by simp, by simp [Event.isKeyStore]⟩
      | some e =>
        rw [Post_trace_of_write_error env j r C t e hdec htok hwr]
        exact ⟨by simp, by simp [Event.isKeyStore]⟩

/-- C8: `Post` calls `jwt.CreateToken` at most once; it calls it exactly once
when claim decoding succeeded and not at all when it failed; the arguments are
the claims `jsonUnmarshal` produced and the key `GetSigningKey` returned on
the handler's key store; and when the call returns an error, all that follows
is the log entry, `WriteHeader(400)` and the error response: no second
call. -/
theorem Post_createToken_once (env : Env Claims Key KeyStore)
    (j : JWTHandler KeyStore Logger) (r : Request) :
    ((Post env j r).trace.filter Event.isCreateToken).length ≤ 1
      ∧ (∀ e, env.jsonUnmarshal r = .error e →
          (Post env j r).trace.filter Event.isCreateToken = [])
      ∧ (∀ C, env.jsonUnmarshal r = .ok C →
          (Post env j r).trace.filter Event.isCreateToken
            = [.createToken C (env.GetSigningKey j.keyStore)
                (env.CreateToken C (env.GetSigningKey j.keyStore))])
      ∧ (∀ C e, env.jsonUnmarshal r = .ok C →
          env.CreateToken C (env.GetSigningKey j.keyStore) = .error e →
          afterCreateToken (Post env j r).trace
            = [.logError "failed to generate JWT" e,
               .writeHeader 400,
               .jsonMarshal (.errorResponse "Failed to generate JWT" e.Error)
                 (env.jsonMarshal (.errorResponse "Failed to generate JWT" e.Error))]
              ++ writeFailureLog
                  (env.jsonMarshal (.errorResponse "Failed to generate JWT" e.Error))) := by
  cases hdec : env.jsonUnmarshal r with
  | error e =>
    rw [Post_trace_of_decode_error env j r e hdec]
    cases env.jsonMarshal (Payload.errorResponse "Failed to read claims" e.Error) <;>
      exact ⟨by simp [writeFailureLog, Event.isCreateToken],
        (fun _ _ => by simp [writeFailureLog, Event.isCreateToken]),
        (fun _ h => nomatch h), (fun _ _ h => nomatch h)⟩
  | ok C =>
    cases htok : env.CreateToken C (env.GetSigningKey j.keyStore) with
    | error e =>
      rw [Post_trace_of_sign_error env j r C e hdec htok]
      cases hm : env.jsonMarshal (Payload.errorResponse "Failed to generate JWT" e.Error) with
      | none =>
        refine ⟨by simp [writeFailureLog, Event.isCreateToken],
          (fun _ h => nomatch h), ?_, ?_⟩
        · intro C2 h2
          cases h2
          simp [writeFailureLog, Event.isCreateToken, htok]
        · intro C2 e2 h2 h3
          cases h2
          rw [htok] at h3
          cases h3
          rw [hm]
          rfl
      | some e3 =>
        refine ⟨by simp [writeFailureLog, Event.isCreateToken],
          (fun _ h => nomatch h), ?_, ?_⟩
        · intro C2 h2
          cases h2
          simp [writeFailureLog, Event.isCreateToken, htok]
        · intro C2 e2 h2 h3
          cases h2
          rw [htok] at h3
          cases h3
          rw [hm]
          rfl
    | ok t =>
      cases hwr : env.jsonMarshal (Payload.jwtResponse t) with
      | none =>
        rw [Post_trace_of_written env j r C t hdec htok hwr]
        refine ⟨by simp [Event.isCreateToken], (fun _ h => nomatch h), ?_, ?_⟩
        · intro C2 h2
          cases h2
          simp [Event.isCreateToken, htok]
        · intro C2 e2 h2 h3
          cases h2
          rw [htok] at h3
          cases h3
      | some e =>
        rw [Post_trace_of_write_error env j r C t e hdec htok hwr]
        refine ⟨by simp [Event.isCreateToken], (fun _ h => nomatch h), ?_, ?_⟩
        · intro C2 h2
          cases h2
          simp [Event.isCreateToken, htok]
        · intro C2 e2 h2 h3
          cases h2
          rw [htok] at h3
          cases h3

/-- The theorem `Post_createToken_once` at a request whose claims the token
builder rejects: one call, followed by the log entry, the status and the error
response. -/
theorem Post_createToken_once_witness :
    (Post demoEnv demoHandler rejectedRequest).trace.filter Event.isCreateToken
        = [.createToken [("alg", "none")] "store/current"
            (.error { msg := "unsupported algorithm" })]
      ∧ afterCreateToken (Post demoEnv demoHandler rejectedRequest).trace
        = [.logError "failed to generate JWT" { msg := "unsupported algorithm" },
           .writeHeader 400,
           .jsonMarshal (.errorResponse "Failed to generate JWT" "unsupported algorithm") none] :=
  ⟨((Post_createToken_once demoEnv demoHandler rejectedRequest).2.2.1
      [("alg", "none")] (by decide)).trans (by decide),
    ((Post_createToken_once demoEnv demoHandler rejectedRequest).2.2.2
      [("alg", "none")] { msg := "unsupported algorithm" } (by decide) (by decide)).trans
      (by decide)⟩

/-- C10: every run of `Post` makes exactly one `jsonMarshal` call on the
response writer.  On the claim-decoding and the signing failure path the
status and body writes are `WriteHeader(400)` followed by the `jsonMarshal` of
the error response, in this order, and no status write follows the body write.
On the path where the claims decode and the token is created, the writes are
the `jsonMarshal` of the `jwtResponse` followed, when it returned no error, by
`WriteHeader(200)`, and by nothing when it returned an error.  So a status
write that follows a body write is that `WriteHeader(200)`, and no other. -/
theorem Post_write_order (env : Env Claims Key KeyStore) (j : JWTHandler KeyStore Logger)
    (r : Request) :
    ((Post env j r).trace.filter Event.isJsonMarshal).length = 1
      ∧ (∀ e, env.jsonUnmarshal r = .error e →
          writerCalls (Post env j r).trace
              = [.writeHeader 400,
                 .jsonMarshal (.errorResponse "Failed to read claims" e.Error)
                   (env.jsonMarshal (.errorResponse "Failed to read claims" e.Error))]
            ∧ statusWritesAfterBody (Post env j r).trace = [])
      ∧ (∀ C e, env.jsonUnmarshal r = .ok C →
          env.CreateToken C (env.GetSigningKey j.keyStore) = .error e →
          writerCalls (Post env j r).trace
              = [.writeHeader 400,
                 .jsonMarshal (.errorResponse "Failed to generate JWT" e.Error)
                   (env.jsonMarshal (.errorResponse "Failed to generate JWT" e.Error))]
            ∧ statusWritesAfterBody (Post env j r).trace = [])
      ∧ (∀ C t, env.jsonUnmarshal r = .ok C →
          env.CreateToken C (env.GetSigningKey j.keyStore) = .ok t →
          env.jsonMarshal (.jwtResponse t) = none →
          writerCalls (Post env j r).trace
              = [.jsonMarshal (.jwtResponse t) none, .writeHeader 200]
            ∧ statusWritesAfterBody (Post env j r).trace = [200])
      ∧ (∀ C t e, env.jsonUnmarshal r = .ok C →
          env.CreateToken C (env.GetSigningKey j.keyStore) = .ok t →
          env.jsonMarshal (.jwtResponse t) = some e →
          writerCalls (Post env j r).trace = [.jsonMarshal (.jwtResponse t) (some e)]
            ∧ statusWritesAfterBody (Post env j r).trace = [])
      ∧ (∀ c ∈ statusWritesAfterBody (Post env j r).trace,
          c = 200
            ∧ statusWritesAfterBody (Post env j r).trace = [200]
            ∧ ∃ C t, env.jsonUnmarshal r = .ok C
                ∧ env.CreateToken C (env.GetSigningKey j.keyStore) = .ok t
                ∧ env.jsonMarshal (.jwtResponse t) = none) := by
  cases hdec : env.jsonUnmarshal r with
  | error e =>
    rw [Post_trace_of_decode_error env j r e hdec]
    cases hm : env.jsonMarshal (Payload.errorResponse "Failed to read claims" e.Error) with
    | none =>
      refine ⟨rfl, ?_, (fun _ _ h => nomatch h), (fun _ _ h => nomatch h),
        (fun _ _ _ h => nomatch h), ?_⟩
      · intro e2 h2
        cases h2
        rw [hm]
        exact ⟨rfl, rfl⟩
      · intro c hc
        simp [statusWritesAfterBody, writeFailureLog] at hc
    | some e3 =>
      refine ⟨rfl, ?_, (fun _ _ h => nomatch h), (fun _ _ h => nomatch h),
        (fun _ _ _ h => nomatch h), ?_⟩
      · intro e2 h2
        cases h2
        rw [hm]
        exact ⟨rfl, rfl⟩
      · intro c hc
        simp [statusWritesAfterBody, writeFailureLog] at hc
  | ok C =>
    cases htok : env.CreateToken C (env.GetSigningKey j.keyStore) with
    | error e =>
      rw [Post_trace_of_sign_error env j r C e hdec htok]
      cases hm : env.jsonMarshal (Payload.errorResponse "Failed to generate JWT" e.Error) with
      | none =>
        refine ⟨rfl, (fun _ h => nomatch h), ?_, ?_, ?_, ?_⟩
        · intro C2 e2 h2 h3
          cases h2
          rw [htok] at h3
          cases h3
          rw [hm]
          exact ⟨rfl, rfl⟩
        · intro C2 t2 h2 h3
          cases h2
          rw [htok] at h3
          cases h3
        · intro C2 t2 e2 h2 h3
          cases h2
          rw [htok] at h3
          cases h3
        · intro c hc
          simp [statusWritesAfterBody, writeFailureLog] at hc
      | some e3 =>
        refine ⟨rfl, (fun _ h => nomatch h), ?_, ?_, ?_, ?_⟩
        · intro C2 e2 h2 h3
          cases h2
          rw [htok] at h3
          cases h3
          rw [hm]
          exact ⟨rfl, rfl⟩
        · intro C2 t2 h2 h3
          cases h2
          rw [htok] at h3
          cases h3
        · intro C2 t2 e2 h2 h3
          cases h2
          rw [htok] at h3
          cases h3
        · intro c hc
          simp [statusWritesAfterBody, writeFailureLog] at hc
    | ok t =>
      cases hwr : env.jsonMarshal (Payload.jwtResponse t) with
      | none =>
        rw [Post_trace_of_written env j r C t hdec htok hwr]
        refine ⟨rfl, (fun _ h => nomatch h), ?_, ?_, ?_, ?_⟩
        · intro C2 e2 h2 h3
          cases h2
          rw [htok] at h3
          cases h3
        · intro C2 t2 h2 h3 _
          cases h2
          rw [htok] at h3
          cases h3
          exact ⟨rfl, rfl⟩
        · intro C2 t2 e2 h2 h3 h4
          cases h2
          rw [htok] at h3
          cases h3
          rw [hwr] at h4
          cases h4
        · intro c hc
          simp [statusWritesAfterBody] at hc
          exact ⟨hc, rfl, C, t, rfl, htok, hwr⟩
      | some e =>
        rw [Post_trace_of_write_error env j r C t e hdec htok hwr]
        refine ⟨rfl, (fun _ h => nomatch h), ?_, ?_, ?_, ?_⟩
        · intro C2 e2 h2 h3
          cases h2
          rw [htok] at h3
          cases h3
        · intro C2 t2 h2 h3 h4
          cases h2
          rw [htok] at h3
          cases h3
          rw [hwr] at h4
          cases h4
        · intro C2 t2 e2 h2 h3 h4
          cases h2
          rw [htok] at h3
          cases h3
          rw [hwr] at h4
          cases h4
          exact ⟨rfl, rfl⟩
        · intro c hc
          simp [statusWritesAfterBody] at hc

/-- The theorem `Post_write_order` at a truncated body and at the request
with claims sub = user-1, on a writer whose writes succeed and on one whose
writes fail. -/
theorem Post_write_order_witness :
    writerCalls (Post demoEnv demoHandler truncatedRequest).trace
        = [.writeHeader 400,
           .jsonMarshal (.errorResponse "Failed to read claims" "unexpected end of JSON input")
             none]
      ∧ writerCalls (Post demoEnv demoHandler demoRequest).trace
        = [.jsonMarshal (.jwtResponse "header.user-1.store/current") none, .writeHeader 200]
      ∧ statusWritesAfterBody (Post demoEnv demoHandler demoRequest).trace = [200]
      ∧ writerCalls (Post brokenPipeEnv demoHandler demoRequest).trace
        = [.jsonMarshal (.jwtResponse "header.user-1.store/current")
            (some { msg := "write: broken pipe" })] :=
  ⟨((Post_write_order demoEnv demoHandler truncatedRequest).2.1
      { msg := "unexpected end of JSON input" } (by decide)).1.trans (by decide),
    ((Post_write_order demoEnv demoHandler demoRequest).2.2.2.1
      [("sub", "user-1")] "header.user-1.store/current"
      (by decide) (by decide) (by decide)).1,
    ((Post_write_order demoEnv demoHandler demoRequest).2.2.2.1
      [("sub", "user-1")] "header.user-1.store/current"
      (by decide) (by decide) (by decide)).2,
    ((Post_write_order brokenPipeEnv demoHandler demoRequest).2.2.2.2.1
      [("sub", "user-1")] "header.user-1.store/current" { msg := "write: broken pipe" }
      (by decide) (by decide) (by decide)).1⟩

end Claims

section TokenClaim

variable {Priv Pub Value Logger : Type}

/-- What a successful `jwt.CreateToken` call has computed. -/
theorem CreateToken_ok (S : SignatureScheme Priv Pub) (J : JsonCodec Value)
    (standard claims : ClaimSet Value) (key : Option (service.KeyPair Priv Pub)) (t : String)
    (htok : jwt.CreateToken S J standard claims key = .ok t) :
    ∃ k hs ps sig, key = some k
      ∧ J.marshalHeader { alg := k.algorithm, kid := k.id } = .ok hs
      ∧ J.marshalClaims (jwt.injectStandard standard claims) = .ok ps
      ∧ S.sign k.algorithm k.privateKey (base64urlEncode hs ++ '.' :: base64urlEncode ps)
          = .ok sig
      ∧ t = String.mk
          (base64urlEncode hs ++ '.' :: base64urlEncode ps ++ '.' :: base64urlEncode sig) := by
  unfold jwt.CreateToken at htok
  cases key with
  | none => cases htok
  | some k =>
    dsimp only at htok
    cases hh : J.marshalHeader { alg := k.algorithm, kid := k.id } with
    | error e => rw [hh] at htok; cases htok
    | ok hs =>
      rw [hh] at htok
      dsimp only at htok
      cases hp : J.marshalClaims (jwt.injectStandard standard claims) with
      | error e => rw [hp] at htok; cases htok
      | ok ps =>
        rw [hp] at htok
        dsimp only at htok
        cases hsg : S.sign k.algorithm k.privateKey
            (base64urlEncode hs ++ '.' :: base64urlEncode ps) with
        | error e => rw [hsg] at htok; cases htok
        | ok sig =>
          rw [hsg] at htok
          cases htok
          exact ⟨k, hs, ps, sig, rfl, hh, rfl, hsg, rfl⟩

/-- C9: for claims `C` that `Post` decodes and the Token Builder signs with
the current signing key of a ready key store, giving the token `t`: `Post`
obtains `t` from `jwt.CreateToken`; the header of `t` names the signing key by
its `kid`, and the public key set has the public key of that key under this
id; verifying `t` against the public key set succeeds and yields the claims
`C` with the standard claims injected, in which a name has the injected value
when a standard claim has that name and the value of `C` otherwise. -/
theorem Post_token_verifies (S : SignatureScheme Priv Pub) (J : JsonCodec Value)
    (standard : ClaimSet Value) (unmarshal : Request → Result (ClaimSet Value))
    (marshal : Payload → Option GoError) (ks : service.KeyStore Priv Pub) (logger : Logger)
    (r : Request) (C : ClaimSet Value) (t : String)
    (hready : ks.Ready S)
    (hdec : unmarshal r = .ok C)
    (htok : jwt.CreateToken S J standard C ks.GetSigningKey = .ok t) :
    Event.createToken C ks.GetSigningKey (.ok t)
        ∈ (Post (jwt.specEnv S J standard unmarshal marshal)
            (NewJWTHandler ks logger) r).trace
      ∧ (∃ k, ks.GetSigningKey = some k
          ∧ jwt.tokenHeader J t = some { alg := k.algorithm, kid := k.id }
          ∧ ks.GetPublicKeySet.find? (fun pk => pk.id == k.id)
            = some { id := k.id, algorithm := k.algorithm,
                     publicKey := S.publicOf k.privateKey })
      ∧ jwt.Verify S J ks.GetPublicKeySet t = some (jwt.injectStandard standard C)
      ∧ ∀ name, (jwt.injectStandard standard C).lookup name
          = match standard.lookup name with
            | some v => some v
            | none => C.lookup name := by
  have hdec2 : (jwt.specEnv S J standard unmarshal marshal).jsonUnmarshal r = .ok C := hdec
  have htok2 : (jwt.specEnv S J standard unmarshal marshal).CreateToken C
      ((jwt.specEnv S J standard unmarshal marshal).GetSigningKey
        (NewJWTHandler ks logger).keyStore) = .ok t := htok
  obtain ⟨k, hs, ps, sig, hk, hh, hp, hsg, ht⟩ :=
    CreateToken_ok S J standard C ks.GetSigningKey t htok
  have hmem : k ∈ ks.keys := by
    unfold service.KeyStore.GetSigningKey at hk
    exact List.mem_of_find?_eq_some hk
  have hpub : k.publicKey = S.publicOf k.privateKey := hready.2 k hmem
  have hsplit : splitDots t.data
      = [base64urlEncode hs, base64urlEncode ps, base64urlEncode sig] := by
    rw [ht]
    exact splitDots_token hs ps sig
  have hheader : jwt.tokenHeader J t = some { alg := k.algorithm, kid := k.id } := by
    unfold jwt.tokenHeader
    rw [hsplit]
    dsimp only
    rw [base64urlDecode_encode]
    exact J.unmarshal_marshalHeader _ _ hh
  have hfind := find_publicKey_of_signingKey ks k hk
  refine ⟨?_, ⟨k, hk, hheader, ?_⟩, ?_, lookup_injectStandard standard C⟩
  · cases hwr : (jwt.specEnv S J standard unmarshal marshal).jsonMarshal
        (Payload.jwtResponse t) with
    | none =>
      rw [Post_trace_of_written _ (NewJWTHandler ks logger) r C t hdec2 htok2 hwr]
      simp [jwt.specEnv, NewJWTHandler]
    | some e =>
      rw [Post_trace_of_write_error _ (NewJWTHandler ks logger) r C t e hdec2 htok2 hwr]
      simp [jwt.specEnv, NewJWTHandler]
  · rw [hfind, hpub]
  · unfold jwt.Verify
    rw [hsplit]
    dsimp only
    rw [hheader]
    dsimp only
    rw [hfind]
    dsimp only
    rw [base64urlDecode_encode, base64urlDecode_encode]
    dsimp only
    have hv : S.verify k.algorithm k.publicKey
        (base64urlEncode hs ++ '.' :: base64urlEncode ps) sig = true := by
      rw [hpub]
      exact S.verify_sign _ _ _ _ hsg
    rw [if_pos ⟨rfl, hv⟩]
    exact J.unmarshal_marshalClaims _ _ hp

/-- The key store of the example is ready. -/
theorem demoKeyStore_ready : demoKeyStore.Ready toyRsa := by
  refine ⟨⟨demoKeyPair, ?_, rfl⟩, ?_⟩
  · simp [demoKeyStore, service.KeyStore.Initialize]
  · intro k hk
    have hk2 : k = demoKeyPair := by
      simpa [demoKeyStore, service.KeyStore.Initialize] using hk
    subst hk2
    rfl

/-- The theorem `Post_token_verifies` at the request with claims
sub = user-1, the toy RSA key and the example codec. -/
theorem Post_token_verifies_witness :
    demoKeyStore.Ready toyRsa
      ∧ demoUnmarshal demoRequest = .ok demoClaims
      ∧ jwt.CreateToken toyRsa demoCodec [] demoClaims demoKeyStore.GetSigningKey
        = .ok "eyJhbGciOiJSUzI1NiIsImtpZCI6ImtleS0xIn0.eyJzdWIiOiJ1c2VyLTEifQ.NA"
      ∧ jwt.Verify toyRsa demoCodec demoKeyStore.GetPublicKeySet
          "eyJhbGciOiJSUzI1NiIsImtpZCI6ImtleS0xIn0.eyJzdWIiOiJ1c2VyLTEifQ.NA"
        = some demoClaims :=
  ⟨demoKeyStore_ready, by decide, by decide,
    (Post_token_verifies toyRsa demoCodec [] demoUnmarshal demoMarshal
      demoKeyStore () demoRequest demoClaims
      "eyJhbGciOiJSUzI1NiIsImtpZCI6ImtleS0xIn0.eyJzdWIiOiJ1c2VyLTEifQ.NA"
      demoKeyStore_ready (by decide) (by decide)).2.2.1⟩

end TokenClaim

end JwtMock
